import Mathlib

/-!
Verification of the voice-session backend (`backend/main.py`,
`backend/services/agent_engine.py`) against its specification.

The shallow embedding below translates the turn-taking session pipeline:

* `calculate_rms`, `handleFrame` — the per-frame VAD segmenter of
  `websocket_endpoint` (main.py lines 137-160, 370-396).  A frame is modelled
  as its list of signed 16-bit samples; its byte length is twice its sample
  count (`byteLen`).  Wall-clock instants (`time.time()`, float seconds) are
  modelled as integer milliseconds, so the 1.5 s silence limit is the integer
  1500.
* `processAudioBuffer` — one invocation of `process_audio_buffer`
  (main.py lines 248-316).  The external transcription provider is modelled by
  the transcript it returns; the generation engine by the list of events its
  stream yields plus an optional point at which iterating the stream raises
  (`failAfter`), which drives the `except` branch of lines 312-314.
* `processRequestBody`, `retryCall`, `engineProcessRequest` — the
  tenacity-decorated `GroqEngine.process_request` (agent_engine.py lines
  108-157).  The provider's streaming call is modelled per attempt by a
  `StreamResult`; the text-to-speech provider by a function from flushed text
  to audio chunks.
* `load_tenant_db`, `groq_engine_init`, `connectSession` — tenant resolution
  at connection time (agent_engine.py lines 28-71, main.py lines 336-344).
* `stepSys`, `runSys` — a small-step machine over one session's
  `processing` / `speaking` flags and the number of pipeline invocations that
  have passed the dispatch gate, with one action per await-separated atomic
  block of `process_audio_buffer` and of the text-message handler
  (main.py lines 259-263, 273-277, 289-291, 306-316, 399-405).
-/

/-! ## Audio / VAD constants (main.py lines 137-142) -/

def SAMPLE_RATE : Nat := 16000

def VOICE_THRESHOLD : Nat := 300

def SILENCE_THRESHOLD : Nat := 150

/-- The source's `SILENCE_DURATION_LIMIT = 1.5` seconds, in the model's
millisecond clock. -/
def SILENCE_DURATION_LIMIT : Int := 1500

def MIN_BUFFER_SIZE : Nat := 8000

/-! ## Python string primitives

`str.strip()` and `str.lower()` as structurally recursive functions on the
character data, so that they evaluate inside the kernel (`String` contains
only ASCII here, where `Char.toLower` agrees with Python). -/

def pyStrip (s : String) : String :=
  ⟨((s.data.dropWhile Char.isWhitespace).reverse.dropWhile Char.isWhitespace).reverse⟩

def pyLower (s : String) : String := ⟨s.data.map Char.toLower⟩

/-! ## Loudness (main.py lines 153-160)

`calculate_rms` unpacks the chunk as little-endian signed 16-bit samples and
returns `int(math.sqrt(sum(s*s)/count))`; for a real `x ≥ 0`,
`int(math.sqrt(x))` equals `Nat.sqrt ⌊x⌋`, so with the frame modelled as its
sample list the Python value is `Nat.sqrt (sumOfSquares / count)` with natural
division.  An empty chunk (and the `except` branch for a malformed one)
returns 0. -/

def calculate_rms (chunk : List Int) : Nat :=
  if chunk = [] then 0
  else Nat.sqrt (((chunk.map (fun s => (s * s).toNat)).sum) / chunk.length)

/-- Byte length of a buffer of 16-bit samples (2 bytes per sample). -/
def byteLen (samples : List Int) : Nat := 2 * samples.length

/-! ## Segmenter state and per-frame handler (main.py lines 358-396) -/

/-- The segmenter variables of the receive loop: `buffer`, `is_speaking`,
`silence_start` (main.py lines 358-360). -/
structure VadState where
  buffer : List Int
  isSpeaking : Bool
  silenceStart : Option Int
deriving DecidableEq

/-- One binary-message step of the receive loop (main.py lines 371-396),
given the session's `state.speaking` flag and the current wall clock `now`.
Returns the new segmenter state and `some utterance` iff a buffer copy was
dispatched to `process_audio_buffer` (line 387). -/
def handleFrame (speaking : Bool) (v : VadState) (chunk : List Int) (now : Int) :
    VadState × Option (List Int) :=
  if speaking then (v, none)
  else
    let rms := calculate_rms chunk
    if VOICE_THRESHOLD < rms then
      ({ buffer := v.buffer ++ chunk, isSpeaking := true, silenceStart := none }, none)
    else if rms ≤ SILENCE_THRESHOLD ∧ v.isSpeaking then
      let ss := v.silenceStart.getD now
      if SILENCE_DURATION_LIMIT ≤ now - ss then
        (⟨[], false, none⟩,
         if MIN_BUFFER_SIZE ≤ byteLen v.buffer then some v.buffer else none)
      else
        ({ v with silenceStart := some ss }, none)
    else (v, none)

/-- Run the receive loop over a list of timestamped frames, counting
dispatches into the generation pipeline. -/
def runFrames (speaking : Bool) : VadState → List (List Int × Int) → VadState × Nat
  | v, [] => (v, 0)
  | v, f :: fs =>
    let r := handleFrame speaking v f.1 f.2
    let rest := runFrames speaking r.1 fs
    (rest.1, (if r.2.isSome then 1 else 0) + rest.2)

/-! ## Session state, events, history (main.py lines 146-149, 248-316) -/

/-- `SessionState` (main.py lines 146-149). -/
structure SessionState where
  processing : Bool
  speaking : Bool
deriving DecidableEq

/-- One `{role, content}` history entry (main.py lines 302-303). -/
structure Msg where
  role : String
  content : String
deriving DecidableEq

/-- An outbound event placed on the per-session send queue, tagged as in the
JSON messages of main.py (`state`, `user_text`, `text`, `audio_start`, raw
audio bytes, `audio_end`, `pong`). -/
inductive OutEvent where
  | state (s : String)
  | userText (s : String)
  | textDelta (s : String)
  | audioStart
  | audioChunk (b : List Nat)
  | audioEnd
  | pong
deriving DecidableEq

/-- An event yielded by `GroqEngine.process_request` (agent_engine.py lines
144, 148, 157): a text delta, an audio chunk, or the apology error event. -/
inductive EngineEvent where
  | text (s : String)
  | audio (b : List Nat)
  | error (s : String)
deriving DecidableEq

/-- Accumulator for the event-consumption loop of `process_audio_buffer`
(main.py lines 284-297): queued output, `collected_text`, the session
`speaking` flag, and `first_audio`. -/
structure StreamAcc where
  out : List OutEvent
  collected : String
  speaking : Bool
  firstAudio : Bool
deriving DecidableEq

/-- One iteration of the `async for event` loop (main.py lines 287-297).
Events of type `error` match neither branch and are dropped. -/
def consumeEvent (a : StreamAcc) (e : EngineEvent) : StreamAcc :=
  match e with
  | .audio b =>
    if a.firstAudio then
      ⟨a.out ++ [.audioStart, .audioChunk b], a.collected, true, false⟩
    else
      ⟨a.out ++ [.audioChunk b], a.collected, a.speaking, a.firstAudio⟩
  | .text s => ⟨a.out ++ [.textDelta s], a.collected ++ s, a.speaking, a.firstAudio⟩
  | .error _ => a

/-- The whole event loop, started with `collected_text = ""`,
`first_audio = True` (main.py lines 284-285). -/
def consumeEvents (speaking : Bool) (evs : List EngineEvent) : StreamAcc :=
  evs.foldl consumeEvent ⟨[], "", speaking, true⟩

/-- Python's `l[-6:]`: the suffix of the most recent `n` entries. -/
def lastN (n : Nat) (l : List α) : List α := l.drop (l.length - n)

/-- Result of one call of `process_audio_buffer`: final session flags, final
`context["history"]`, the events put on the send queue, whether transcription
ran, and whether the generation engine was invoked. -/
structure PipeResult where
  state : SessionState
  history : List Msg
  out : List OutEvent
  transcribed : Bool
  engineInvoked : Bool
deriving DecidableEq

/-- `process_audio_buffer` (main.py lines 248-316) with its two external
providers injected: `transcript` is what `transcribe_audio` returns, and the
engine stream is `engineEvents` with `failAfter = some k` meaning iterating
the stream raises right after its first `k` events (driving the `except`
branch, lines 312-314; `none` means the stream completes normally). -/
def processAudioBuffer (st : SessionState) (history : List Msg) (transcript : String)
    (engineEvents : List EngineEvent) (failAfter : Option Nat) : PipeResult :=
  if st.processing || st.speaking then
    ⟨st, history, [], false, false⟩
  else
    if pyStrip transcript = "" then
      ⟨⟨false, st.speaking⟩, history, [.state "thinking", .state "listening"], true, false⟩
    else
      let consumed := engineEvents.take (failAfter.getD engineEvents.length)
      let acc := consumeEvents st.speaking consumed
      match failAfter with
      | some _ =>
        ⟨⟨false, false⟩, history,
          [.state "thinking", .userText transcript] ++ acc.out, true, true⟩
      | none =>
        ⟨⟨false, acc.speaking⟩,
          lastN 6 (history ++ [⟨"user", transcript⟩, ⟨"assistant", acc.collected⟩]),
          [.state "thinking", .userText transcript] ++ acc.out ++ [.audioEnd],
          true, true⟩

/-- Iterated completed turns on one session: turn `i` dispatches transcript
`ts i` with engine stream `es i`, starting from an empty history and an idle
session, each stream completing normally. -/
def runTurns (ts : Nat → String) (es : Nat → List EngineEvent) : Nat → List Msg
  | 0 => []
  | n + 1 =>
    (processAudioBuffer ⟨false, false⟩ (runTurns ts es n) (ts n) (es n) none).history

/-- A parsed inbound text message (main.py lines 399-409). -/
inductive ClientMsg where
  | playback_done
  | ping
  | other
deriving DecidableEq

/-- The text-message handler of the receive loop (main.py lines 399-409). -/
def handleClientMsg (st : SessionState) (m : ClientMsg) : SessionState × List OutEvent :=
  match m with
  | .playback_done => (⟨st.processing, false⟩, [.state "listening"])
  | .ping => (st, [.pong])
  | .other => (st, [])

/-! ## Generation engine (agent_engine.py lines 108-157)

`process_request` is an async generator decorated with
`@retry(stop_after_attempt(3), wait_exponential(...), reraise=True)`.
Tenacity re-invokes a call only when it raises; the generator's body wraps the
entire provider interaction in `try/except Exception` and converts any failure
into a single apology `error` event (line 157), so one physical call of the
generator never raises. -/

/-- The sentence-boundary characters of agent_engine.py line 146.  Each Python
"punct" is a single character, so `punct in content` is character
containment. -/
def sentenceBoundaryChars : List Char := ['.', '!', '؟', '\n', '،']

def hasPunct (s : String) : Bool := sentenceBoundaryChars.any (fun c => s.data.contains c)

/-- The apology yielded on engine failure (agent_engine.py line 157). -/
def apologyText : String := "حدث خطأ، لحظة وأكون معك."

/-- `_tts_stream` (agent_engine.py lines 159-196) with the synthesis provider
injected as `tts`: empty / whitespace-only text yields no chunks (line 161);
provider failure is modelled by `tts` returning `[]`. -/
def ttsStream (tts : String → List (List Nat)) (text : String) : List (List Nat) :=
  if pyStrip text = "" then [] else tts text

/-- Outcome of one streaming call to the generation provider: either the
stream yields `deltas` and completes, or it raises after yielding them
(creation failure is `failAfter []`). -/
inductive StreamResult where
  | ok (deltas : List String)
  | failAfter (deltas : List String)
deriving DecidableEq

/-- One delta of the token loop (agent_engine.py lines 141-149): accumulate
into `text_buffer`, yield the text event, and on a sentence boundary flush
`text_buffer` through synthesis. -/
def consumeDelta (tts : String → List (List Nat)) (a : List EngineEvent × String)
    (d : String) : List EngineEvent × String :=
  let buf := a.2 ++ d
  let evs := a.1 ++ [.text d]
  if hasPunct d then
    (evs ++ (ttsStream tts buf).map .audio, "")
  else
    (evs, buf)

/-- The body of one physical call of `process_request` (agent_engine.py lines
126-157): stream the deltas, flush trailing text at stream end, and convert a
provider exception into the single apology event.  Total — the body never
raises. -/
def processRequestBody (tts : String → List (List Nat)) (sr : StreamResult) :
    List EngineEvent :=
  match sr with
  | .ok deltas =>
    let a := deltas.foldl (consumeDelta tts) ([], "")
    a.1 ++ if pyStrip a.2 = "" then [] else (ttsStream tts a.2).map .audio
  | .failAfter deltas =>
    (deltas.foldl (consumeDelta tts) ([], "")).1 ++ [.error apologyText]

/-- Tenacity's retry loop: invoke `call` on successive attempt numbers while
it raises, up to `maxAttempts` calls; return the number of calls made and the
final outcome. -/
def retryCall {α : Type} : Nat → (Nat → Except Unit α) → Nat → Nat × Except Unit α
  | 0, _, k => (k, .error ())
  | n + 1, call, k =>
    match call k with
    | .ok a => (k + 1, .ok a)
    | .error e => if n = 0 then (k + 1, .error e) else retryCall n call (k + 1)

/-- One physical call of the decorated generator, with the provider's
per-attempt behaviour injected.  It always returns `Except.ok` because the
body catches every exception (agent_engine.py lines 155-157), so the retry
decorator never observes a failure. -/
def processRequestCall (tts : String → List (List Nat)) (provider : Nat → StreamResult)
    (attempt : Nat) : Except Unit (List EngineEvent) :=
  .ok (processRequestBody tts (provider attempt))

/-- The decorated `process_request` as the dispatcher sees it: attempts used
by the retry wrapper, and the events the stream yields. -/
def engineProcessRequest (tts : String → List (List Nat))
    (provider : Nat → StreamResult) : Nat × List EngineEvent :=
  match retryCall 3 (processRequestCall tts provider) 0 with
  | (k, .ok evs) => (k, evs)
  | (k, .error _) => (k, [])

/-! ## Tenant resolution at connection time (agent_engine.py lines 28-71,
main.py lines 336-344) -/

/-- The alias normalisation map of `_load_tenant_db` (agent_engine.py lines
45-49). -/
def id_map : List (String × String) :=
  [("tiryaq_technology", "tiryaq"), ("tenant1", "tenant1"),
   ("insurance_client", "insurance_client")]

/-- `clean_id` (agent_engine.py line 51): normalise, then map aliases, else
keep the id. -/
def cleanId (tenant_id : String) : String :=
  (List.lookup (pyStrip (pyLower tenant_id)) id_map).getD tenant_id

/-- Status of `data/<key>_db.json` on disk: readable JSON, unreadable (open or
parse raises), or missing. -/
inductive DBFile where
  | present
  | corrupt
  | absent
deriving DecidableEq

/-- The dict `_load_tenant_db` returns, identified by provenance: the parsed
document of a data file, or the literal empty-fallback dict of the `except`
branch (agent_engine.py line 66). -/
inductive TenantDB where
  | parsed (fileKey : String)
  | emptyFallback
deriving DecidableEq

/-- `_load_tenant_db` (agent_engine.py lines 41-66): if the tenant's file is
missing, retarget to the default `tiryaq` file (lines 56-58); any remaining
failure is caught and yields the empty fallback dict.  Never raises. -/
def load_tenant_db (fs : String → DBFile) (tenant_id : String) : TenantDB :=
  let clean := cleanId tenant_id
  let key := if fs clean = .absent then "tiryaq" else clean
  match fs key with
  | .present => .parsed key
  | _ => .emptyFallback

/-- `GroqEngine.__init__` (agent_engine.py lines 28-39): load the tenant DB
(never raises), then `_init_groq`, which raises iff `GROQ_API_KEY` is
missing. -/
def groq_engine_init (fs : String → DBFile) (groqKey : Bool) (tenant_id : String) :
    Except Unit TenantDB :=
  let db := load_tenant_db fs tenant_id
  if groqKey then .ok db else .error ()

/-- What a new connection observes (main.py lines 336-344): engine
construction failure closes the socket with code 4001, otherwise the session
proceeds with the constructed engine's DB. -/
inductive ConnectOutcome where
  | closed4001
  | session (db : TenantDB)
deriving DecidableEq

def connectSession (fs : String → DBFile) (groqKey : Bool) (tenant_id : String) :
    ConnectOutcome :=
  match groq_engine_init fs groqKey tenant_id with
  | .error _ => .closed4001
  | .ok db => .session db

/-! ## Per-session interleaving machine (main.py lines 259-263, 273-277,
289-291, 306-316, 399-405)

`process_audio_buffer` runs as a detached task.  Between two awaits the
asyncio loop runs a task's code atomically, so the gate check plus
`state.processing = True` (lines 260-263, no await between them) is one atomic
action, as is each flag update.  The machine tracks the two session flags and
`active`, the number of invocations that have passed the gate and not yet run
their `finally`. -/

structure Sys where
  processing : Bool
  speaking : Bool
  active : Nat
deriving DecidableEq

/-- Atomic actions of one session: a spawned task reaching the dispatch gate
(lines 260-263); an active task ending its turn on an empty transcript (lines
273-277 plus `finally`); an active task seeing its first audio event (lines
289-291); an active task completing normally (lines 306-316) or via the
`except` branch (lines 312-316); the client's `playback_done` message (lines
402-404). -/
inductive Act where
  | gate
  | emptyDone
  | firstAudio
  | finishOk
  | finishErr
  | playbackDone
deriving DecidableEq

def stepSys (s : Sys) : Act → Sys
  | .gate => if s.processing || s.speaking then s else ⟨true, s.speaking, s.active + 1⟩
  | .emptyDone => if s.active = 0 then s else ⟨false, s.speaking, s.active - 1⟩
  | .firstAudio => if s.active = 0 then s else ⟨s.processing, true, s.active⟩
  | .finishOk => if s.active = 0 then s else ⟨false, s.speaking, s.active - 1⟩
  | .finishErr => if s.active = 0 then s else ⟨false, false, s.active - 1⟩
  | .playbackDone => ⟨s.processing, false, s.active⟩

/-- Session start: both flags false, no invocation past the gate
(main.py line 354). -/
def initSys : Sys := ⟨false, false, 0⟩

def runSys (tr : List Act) : Sys := tr.foldl stepSys initSys

/-- The reachability invariant behind mutual exclusion: an invocation past the
gate holds `processing`, and there is at most one. -/
def SysInv (s : Sys) : Prop := s.active = 0 ∨ (s.active = 1 ∧ s.processing = true)

/-! ## Helper lemmas -/

theorem lastN_length (n : Nat) (l : List α) : (lastN n l).length = min l.length n := by
  simp [lastN]
  omega

theorem sysInv_init : SysInv initSys := Or.inl rfl

theorem sysInv_step (s : Sys) (a : Act) (h : SysInv s) : SysInv (stepSys s a) := by
  obtain ⟨p, sp, n⟩ := s
  simp only [SysInv] at h ⊢
  rcases h with h0 | ⟨h1, h2⟩ <;>
    cases a <;> simp only [stepSys] <;>
      (try subst h0) <;> (try subst h1) <;> (try subst h2) <;>
      (try split_ifs with hg) <;> simp_all

theorem sysInv_run (tr : List Act) : ∀ s : Sys, SysInv s → SysInv (tr.foldl stepSys s) := by
  induction tr with
  | nil => intro s h; exact h
  | cons a tl ih => intro s h; exact ih _ (sysInv_step s a h)

theorem audioEnd_not_mem_consume (evs : List EngineEvent) :
    ∀ a : StreamAcc, OutEvent.audioEnd ∉ a.out →
      OutEvent.audioEnd ∉ (evs.foldl consumeEvent a).out := by
  induction evs with
  | nil => intro a h; exact h
  | cons e tl ih =>
    intro a h
    refine ih _ ?_
    cases e with
    | audio b =>
      by_cases hf : a.firstAudio <;> simp_all [consumeEvent]
    | text s => simp_all [consumeEvent]
    | error s => simpa [consumeEvent] using h

theorem calculate_rms_200 : calculate_rms [200, 200] = 200 := by
  have h : ((([200, 200] : List Int).map (fun s => (s * s).toNat)).sum) / 2 = 200 ^ 2 := by
    decide
  simpa [calculate_rms, h] using Nat.sqrt_eq' 200

theorem handleFrame_silent_step (sp : Bool) (v : VadState) (c : List Int) (t t0 : Int)
    (hrms : calculate_rms c ≤ SILENCE_THRESHOLD)
    (hinv : v.silenceStart = none ∨ ∃ u, v.silenceStart = some u ∧ t0 ≤ u)
    (ht1 : t0 ≤ t) (ht2 : t - t0 < SILENCE_DURATION_LIMIT) :
    (handleFrame sp v c t).1.buffer = v.buffer ∧
    (handleFrame sp v c t).2 = none ∧
    ((handleFrame sp v c t).1.silenceStart = none ∨
      ∃ u, (handleFrame sp v c t).1.silenceStart = some u ∧ t0 ≤ u) := by
  obtain ⟨buf, isp, sstart⟩ := v
  have hnv : ¬ (VOICE_THRESHOLD < calculate_rms c) := by
    simp only [VOICE_THRESHOLD]; simp only [SILENCE_THRESHOLD] at hrms; omega
  by_cases hsp : sp
  · have heq : handleFrame sp ⟨buf, isp, sstart⟩ c t = (⟨buf, isp, sstart⟩, none) := by
      simp [handleFrame, hsp]
    rw [heq]
    exact ⟨rfl, rfl, hinv⟩
  · by_cases hisp : isp = true
    · rcases hinv with hnone | ⟨u, hsome, hu⟩
      · simp only at hnone
        subst hnone
        have heq : handleFrame sp ⟨buf, isp, none⟩ c t = (⟨buf, isp, some t⟩, none) := by
          simp [handleFrame, hsp, hnv, hrms, hisp, SILENCE_DURATION_LIMIT]
        rw [heq]
        exact ⟨rfl, rfl, Or.inr ⟨t, rfl, ht1⟩⟩
      · simp only at hsome
        subst hsome
        have hlim : ¬ (SILENCE_DURATION_LIMIT ≤ t - u) := by
          simp only [SILENCE_DURATION_LIMIT] at ht2 ⊢
          omega
        have heq : handleFrame sp ⟨buf, isp, some u⟩ c t = (⟨buf, isp, some u⟩, none) := by
          simp [handleFrame, hsp, hnv, hrms, hisp, hlim]
        rw [heq]
        exact ⟨rfl, rfl, Or.inr ⟨u, rfl, hu⟩⟩
    · have heq : handleFrame sp ⟨buf, isp, sstart⟩ c t = (⟨buf, isp, sstart⟩, none) := by
        simp [handleFrame, hsp, hnv, hisp]
      rw [heq]
      exact ⟨rfl, rfl, hinv⟩

theorem runFrames_silent_aux (sp : Bool) :
    ∀ (frames : List (List Int × Int)) (v : VadState) (t0 : Int),
      (v.silenceStart = none ∨ ∃ u, v.silenceStart = some u ∧ t0 ≤ u) →
      (∀ p, p ∈ frames → calculate_rms p.1 ≤ SILENCE_THRESHOLD ∧ t0 ≤ p.2 ∧
        p.2 - t0 < SILENCE_DURATION_LIMIT) →
      (runFrames sp v frames).1.buffer = v.buffer ∧ (runFrames sp v frames).2 = 0 := by
  intro frames
  induction frames with
  | nil => intro v t0 _ _; simp [runFrames]
  | cons f fs ih =>
    intro v t0 hinv hall
    have hf := hall f (List.mem_cons_self f fs)
    have hstep := handleFrame_silent_step sp v f.1 f.2 t0 hf.1 hinv hf.2.1 hf.2.2
    have hrest := ih (handleFrame sp v f.1 f.2).1 t0 hstep.2.2
      (fun p hp => hall p (List.mem_cons_of_mem f hp))
    simp only [runFrames]
    constructor
    · rw [hrest.1, hstep.1]
    · rw [hstep.2.1]
      simp [hrest.2]

/-! ## Claims -/

/-- Claim C1: while a session's `processing` or `speaking` flag is true, a
dispatch attempt into `process_audio_buffer` is a complete no-op — no
transcription, no emitted events, no engine invocation, state and history
untouched — the gate action of the interleaving machine leaves the state
unchanged, and along every interleaving of gate, pipeline and client actions
at most one pipeline invocation is past the dispatch gate at any time. -/
theorem C1_mutual_exclusion :
    (∀ st hist t evs fa, (st.processing || st.speaking) = true →
      processAudioBuffer st hist t evs fa = ⟨st, hist, [], false, false⟩) ∧
    (∀ s : Sys, (s.processing || s.speaking) = true → stepSys s .gate = s) ∧
    (∀ tr : List Act, (runSys tr).active ≤ 1) := by
  refine ⟨?_, ?_, ?_⟩
  · intro st hist t evs fa h
    simp [processAudioBuffer, h]
  · intro s h
    simp [stepSys, h]
  · intro tr
    have h := sysInv_run tr initSys sysInv_init
    rcases h with h0 | ⟨h1, _⟩
    · simp [runSys, h0]
    · simp [runSys, h1]

theorem C1_witness :
    processAudioBuffer ⟨true, false⟩ [] "hi" [] none = ⟨⟨true, false⟩, [], [], false, false⟩ ∧
    stepSys ⟨false, true, 0⟩ .gate = ⟨false, true, 0⟩ ∧
    (runSys [.gate, .gate, .firstAudio, .gate]).active ≤ 1 :=
  ⟨C1_mutual_exclusion.1 ⟨true, false⟩ [] "hi" [] none rfl,
   C1_mutual_exclusion.2.1 ⟨false, true, 0⟩ rfl,
   C1_mutual_exclusion.2.2 [.gate, .gate, .firstAudio, .gate]⟩

/-- Claim C2 as stated is false on the code: a pipeline invocation that
raises after its first audio event runs the `except` branch of
`process_audio_buffer` (main.py lines 312-314), which clears `speaking`
although no `playback_done` message ever arrived. -/
theorem C2_counterexample :
    (runSys [.gate, .firstAudio]).speaking = true ∧
    (runSys [.gate, .firstAudio, .finishErr]).speaking = false ∧
    Act.playbackDone ∉ [Act.gate, Act.firstAudio, Act.finishErr] := by
  decide

/-- Claim C2 amended: `speaking` transitions from true to false only on the
client's `playback_done` message — which also enqueues
`StateChanged(listening)` — or on the pipeline's exception handler after a
failed invocation; in particular successful pipeline completion never clears
`speaking`. -/
theorem C2_amended_speaking_clear :
    (∀ (s : Sys) (a : Act), s.speaking = true → (stepSys s a).speaking = false →
      a = .playbackDone ∨ a = .finishErr) ∧
    (∀ st : SessionState,
      handleClientMsg st .playback_done = (⟨st.processing, false⟩, [.state "listening"])) := by
  constructor
  · intro s a h1 h2
    obtain ⟨p, sp, n⟩ := s
    simp only at h1
    subst h1
    cases a <;> simp only [stepSys] at h2 <;> (try split_ifs at h2) <;> simp_all
  · intro st
    rfl

theorem C2_amended_witness :
    (Act.playbackDone = Act.playbackDone ∨ Act.playbackDone = Act.finishErr) ∧
    handleClientMsg ⟨true, true⟩ .playback_done = (⟨true, false⟩, [.state "listening"]) :=
  ⟨C2_amended_speaking_clear.1 ⟨false, true, 0⟩ .playbackDone rfl rfl,
   C2_amended_speaking_clear.2 ⟨true, true⟩⟩

/-- A filesystem on which only the default `tiryaq` data file exists. -/
def fsGhost : String → DBFile := fun k => if k = "tiryaq" then .present else .absent

/-- Claim C3 as stated is false on the code: for the unknown tenant "ghost"
whose data file is missing, `_load_tenant_db` retargets to the default
`tiryaq` file (agent_engine.py lines 56-58) and the connection proceeds with
the default configuration instead of being closed with 4001. -/
theorem C3_counterexample :
    fsGhost (cleanId "ghost") = .absent ∧
    connectSession fsGhost true "ghost" = .session (.parsed "tiryaq") ∧
    cleanId "ghost" ≠ "tiryaq" := by
  decide

/-- Claim C3 amended: tenant configuration is resolved eagerly at session
creation, but resolution itself never fails the connection — the close with
code 4001 happens exactly when the GROQ API key is missing; a tenant whose
data file is missing silently proceeds with the default `tiryaq` database
(and, if that is also unreadable, with the empty fallback configuration). -/
theorem C3_amended :
    (∀ fs tid, connectSession fs false tid = .closed4001) ∧
    (∀ fs tid, connectSession fs true tid = .session (load_tenant_db fs tid)) ∧
    (∀ fs tid, fs (cleanId tid) = .absent → fs "tiryaq" = .present →
      load_tenant_db fs tid = .parsed "tiryaq") := by
  refine ⟨?_, ?_, ?_⟩
  · intro fs tid
    rfl
  · intro fs tid
    rfl
  · intro fs tid h1 h2
    simp [load_tenant_db, h1, h2]

theorem C3_amended_witness :
    connectSession fsGhost false "ghost" = .closed4001 ∧
    load_tenant_db fsGhost "ghost" = .parsed "tiryaq" :=
  ⟨C3_amended.1 fsGhost "ghost",
   C3_amended.2.2 fsGhost "ghost" (by decide) (by decide)⟩

/-- A concrete synthesis provider for evaluation. -/
def tts0 : String → List (List Nat) := fun _ => [[0]]

/-- The retry scenario of claim C4: the generation provider raises on its
first two streaming calls and succeeds on the third. -/
def failTwiceProvider : Nat → StreamResult
  | 0 => .failAfter []
  | 1 => .failAfter []
  | _ => .ok ["تمام."]

/-- Claim C4 evaluated on the code at its own scenario.  The claim is right
about the intent (the `@retry(stop_after_attempt(3), wait_exponential(...),
reraise=True)` decorator on `process_request`) but the code defeats it: the
generator body catches the provider failure itself and yields the apology
event, so the decorated call succeeds on the very first attempt — no retry,
no successful third-attempt event sequence — and the dispatcher then drops
the apology, because its event loop forwards only `audio` and `text` events.
The third conjunct shows the retry wrapper itself would have made all three
calls had the failures been allowed to escape. -/
theorem C4_code_bug_eval :
    engineProcessRequest tts0 failTwiceProvider = (1, [.error apologyText]) ∧
    (processAudioBuffer ⟨false, false⟩ [] "سؤال" [.error apologyText] none).out
      = [.state "thinking", .userText "سؤال", .audioEnd] ∧
    (retryCall 3 (fun k => if k < 2 then (.error () : Except Unit Unit) else .ok ()) 0).1
      = 3 := by
  decide

/-- Claim C5 as stated is false on the code: `audio_end` is enqueued inside
the `try` block (main.py line 307), not in the `finally`, so an invocation
that raises after its first audio event ends without an `AudioEnd` event —
only `processing = false` is unconditional. -/
theorem C5_counterexample :
    OutEvent.audioEnd ∉ (processAudioBuffer ⟨false, false⟩ [] "hi" [.audio [7]] (some 1)).out ∧
    (processAudioBuffer ⟨false, false⟩ [] "hi" [.audio [7]] (some 1)).state.processing
      = false := by
  decide

/-- Claim C5 amended: for every pipeline invocation that passes the dispatch
gate, the `processing` flag is cleared to false in a final step regardless of
outcome, but `AudioEnd` is emitted exactly when the invocation completes
without an exception on a non-empty transcript. -/
theorem C5_amended :
    ∀ st hist t evs fa, st.processing = false → st.speaking = false →
      (processAudioBuffer st hist t evs fa).state.processing = false ∧
      (OutEvent.audioEnd ∈ (processAudioBuffer st hist t evs fa).out ↔
        (pyStrip t ≠ "" ∧ fa = none)) := by
  intro st hist t evs fa h1 h2
  obtain ⟨p, sp⟩ := st
  simp only at h1 h2
  subst h1; subst h2
  by_cases ht : pyStrip t = ""
  · simp [processAudioBuffer, ht]
  · cases fa with
    | none =>
      refine ⟨by simp [processAudioBuffer, ht], ?_⟩
      simp [processAudioBuffer, ht]
    | some k =>
      have hmem : OutEvent.audioEnd ∉
          (consumeEvents false (evs.take ((some k).getD evs.length))).out := by
        apply audioEnd_not_mem_consume
        simp
      refine ⟨by simp [processAudioBuffer, ht], ?_⟩
      simp only [processAudioBuffer, Bool.false_or, Bool.or_self, if_neg ht]
      simp_all [consumeEvents]

theorem C5_amended_witness :
    (processAudioBuffer ⟨false, false⟩ [] "hey" [.text "a"] none).state.processing = false ∧
    (OutEvent.audioEnd ∈ (processAudioBuffer ⟨false, false⟩ [] "hey" [.text "a"] none).out ↔
      (pyStrip "hey" ≠ "" ∧ (none : Option Nat) = none)) :=
  C5_amended ⟨false, false⟩ [] "hey" [.text "a"] none rfl rfl

/-- Claim C6: at a silence boundary (loudness at or below the offset
threshold while the segmenter is in speech, with the silence window elapsed),
a buffered utterance shorter than `MIN_BUFFER_SIZE` bytes is discarded — no
dispatch happens and the buffer, speech flag and silence timestamp are all
reset. -/
theorem C6_short_buffer_discard :
    ∀ (v : VadState) (chunk : List Int) (now t0 : Int),
      v.isSpeaking = true → v.silenceStart = some t0 →
      calculate_rms chunk ≤ SILENCE_THRESHOLD →
      SILENCE_DURATION_LIMIT ≤ now - t0 →
      byteLen v.buffer < MIN_BUFFER_SIZE →
      handleFrame false v chunk now = (⟨[], false, none⟩, none) := by
  intro v chunk now t0 h1 h2 h3 h4 h5
  obtain ⟨buf, isp, sstart⟩ := v
  simp only at h1 h2 h5
  subst h1; subst h2
  have hnv : ¬ (VOICE_THRESHOLD < calculate_rms chunk) := by
    simp only [VOICE_THRESHOLD]; simp only [SILENCE_THRESHOLD] at h3; omega
  simp [handleFrame, hnv, h3, h4, Nat.not_le.mpr h5]

theorem C6_witness :
    handleFrame false ⟨[1], true, some 0⟩ [0, 0] 2000 = (⟨[], false, none⟩, none) :=
  C6_short_buffer_discard ⟨[1], true, some 0⟩ [0, 0] 2000 0 rfl rfl
    (by decide) (by decide) (by decide)

/-- Claim C7: a run of frames whose loudness is at or below the offset
threshold, all of whose timestamps lie within the silence-duration limit of a
common origin `t0` preceding them (in particular, within the limit of the
first frame of the run, which is what starts the countdown), never produces a
boundary: no dispatch occurs and the utterance buffer is left unchanged. -/
theorem C7_no_premature_boundary :
    ∀ (sp : Bool) (v : VadState) (frames : List (List Int × Int)) (t0 : Int),
      v.silenceStart = none →
      (∀ p, p ∈ frames → calculate_rms p.1 ≤ SILENCE_THRESHOLD ∧ t0 ≤ p.2 ∧
        p.2 - t0 < SILENCE_DURATION_LIMIT) →
      (runFrames sp v frames).1.buffer = v.buffer ∧ (runFrames sp v frames).2 = 0 := by
  intro sp v frames t0 hnone hall
  exact runFrames_silent_aux sp frames v t0 (Or.inl hnone) hall

theorem C7_witness :
    (runFrames false ⟨[9], true, none⟩ [([0, 0], 10), ([0, 0], 1400)]).1.buffer = [9] ∧
    (runFrames false ⟨[9], true, none⟩ [([0, 0], 10), ([0, 0], 1400)]).2 = 0 :=
  C7_no_premature_boundary false ⟨[9], true, none⟩ [([0, 0], 10), ([0, 0], 1400)] 10
    rfl (by decide)

/-- Claim C8: a completed successful turn appends the `{user, transcript}`
and `{assistant, collected text}` entries and keeps only the most recent 6
entries (oldest evicted first, Python `[-6:]`), and starting from an empty
history, after `N` completed turns the history length is `min (2 N) 6`. -/
theorem C8_history_bounded :
    (∀ hist t evs, pyStrip t ≠ "" →
      (processAudioBuffer ⟨false, false⟩ hist t evs none).history
        = lastN 6 (hist ++ [⟨"user", t⟩,
            ⟨"assistant", (consumeEvents false evs).collected⟩])) ∧
    (∀ ts es, (∀ i, pyStrip (ts i) ≠ "") → ∀ n,
      (runTurns ts es n).length = min (2 * n) 6) := by
  have ha : ∀ hist t evs, pyStrip t ≠ "" →
      (processAudioBuffer ⟨false, false⟩ hist t evs none).history
        = lastN 6 (hist ++ [⟨"user", t⟩,
            ⟨"assistant", (consumeEvents false evs).collected⟩]) := by
    intro hist t evs ht
    simp [processAudioBuffer, ht]
  refine ⟨ha, ?_⟩
  intro ts es hts n
  induction n with
  | zero => simp [runTurns]
  | succ n ih =>
    simp only [runTurns]
    rw [ha _ _ _ (hts n), lastN_length, List.length_append, ih]
    simp only [List.length_cons, List.length_nil]
    omega

theorem C8_witness :
    (processAudioBuffer ⟨false, false⟩ [] "q" [.text "a"] none).history
      = lastN 6 ([] ++ [⟨"user", "q"⟩,
          ⟨"assistant", (consumeEvents false [.text "a"]).collected⟩]) ∧
    (runTurns (fun _ => "q") (fun _ => [.text "a"]) 4).length = min (2 * 4) 6 :=
  ⟨C8_history_bounded.1 [] "q" [.text "a"] (by decide),
   C8_history_bounded.2 (fun _ => "q") (fun _ => [.text "a"])
     (fun _ => (by decide : pyStrip "q" ≠ "")) 4⟩

/-- Claim C9: an invocation that passes the dispatch gate and transcribes to
empty or whitespace-only text emits `StateChanged(thinking)` then
`StateChanged(listening)`, clears `processing`, leaves the history unchanged
and never invokes the generation engine. -/
theorem C9_empty_transcript :
    ∀ st hist t evs fa, st.processing = false → st.speaking = false →
      pyStrip t = "" →
      processAudioBuffer st hist t evs fa
        = ⟨⟨false, false⟩, hist, [.state "thinking", .state "listening"], true, false⟩ := by
  intro st hist t evs fa h1 h2 h3
  obtain ⟨p, sp⟩ := st
  simp only at h1 h2
  subst h1; subst h2
  simp [processAudioBuffer, h3]

theorem C9_witness :
    processAudioBuffer ⟨false, false⟩ [⟨"user", "old"⟩] "  " [.text "x"] none
      = ⟨⟨false, false⟩, [⟨"user", "old"⟩],
          [.state "thinking", .state "listening"], true, false⟩ :=
  C9_empty_transcript ⟨false, false⟩ [⟨"user", "old"⟩] "  " [.text "x"] none
    rfl rfl (by decide)

/-- Claim C10: a frame in the hysteresis dead band (loudness strictly above
the offset threshold and at most the onset threshold), or a frame at or below
the offset threshold while the segmenter's speech flag is false, is ignored
entirely: buffer, speech flag and silence timestamp are unchanged and no
dispatch occurs — in particular a dead-band frame does not reset an ongoing
silence countdown. -/
theorem C10_ignored_frames :
    ∀ (sp : Bool) (v : VadState) (chunk : List Int) (now : Int),
      ((SILENCE_THRESHOLD < calculate_rms chunk ∧
          calculate_rms chunk ≤ VOICE_THRESHOLD) ∨
        (calculate_rms chunk ≤ SILENCE_THRESHOLD ∧ v.isSpeaking = false)) →
      handleFrame sp v chunk now = (v, none) := by
  intro sp v chunk now h
  obtain ⟨buf, isp, sstart⟩ := v
  by_cases hsp : sp
  · simp [handleFrame, hsp]
  · rcases h with ⟨h1, h2⟩ | ⟨h1, h2⟩
    · simp only [SILENCE_THRESHOLD] at h1
      simp only [VOICE_THRESHOLD] at h2
      have hnv : ¬ (VOICE_THRESHOLD < calculate_rms chunk) := by
        simp only [VOICE_THRESHOLD]; omega
      have hns : ¬ (calculate_rms chunk ≤ SILENCE_THRESHOLD) := by
        simp only [SILENCE_THRESHOLD]; omega
      simp [handleFrame, hsp, hnv, hns]
    · simp only at h2
      subst h2
      have hnv : ¬ (VOICE_THRESHOLD < calculate_rms chunk) := by
        simp only [VOICE_THRESHOLD]
        simp only [SILENCE_THRESHOLD] at h1
        omega
      simp [handleFrame, hsp, hnv]

theorem C10_witness :
    handleFrame false ⟨[3], true, some 5⟩ [200, 200] 7 = (⟨[3], true, some 5⟩, none) :=
  C10_ignored_frames false ⟨[3], true, some 5⟩ [200, 200] 7
    (Or.inl ⟨by rw [calculate_rms_200]; decide, by rw [calculate_rms_200]; decide⟩)
